import Mathlib

set_option autoImplicit false

/-
  Shallow embedding of the application controller of gakuon-editor
  (src/src/app/index.ts): the App facade (play / stop / exportSID /
  exportASM / exportPlayer / closeDocument / closeAllDocuments), the
  Private view-toggle handlers, and Util.bench.

  External collaborators (the gakuon Compiler, the 6502asm Assembler, the
  jsSID audio engine, file-saver saveAs, and the phosphor widget toolkit)
  are opaque services.  The compiler and assembler are modelled as pure
  functions supplied in a Services record; every call the controller makes
  into a boundary collaborator is recorded as an ExtCall event, so that
  invocation counts and call order are statable.  A thrown JavaScript
  exception is modelled as an Except.error value that propagates outward;
  dereferencing null (for example reading a field of a null currentWidget)
  is modelled as the distinguished error TypeError.
-/

namespace Gakuon

/-- An uncaught failure escaping an App operation.  TypeError models a
JavaScript null dereference; compileError and assembleError carry the
diagnostic thrown by the external compiler or assembler.  The constructor
noActiveDocument is the distinguishable error named by the specification
taxonomy; it is part of the vocabulary so that statements can compare the
code's actual failure against it, but the code never produces it. -/
inductive AppError where
  | typeError : AppError
  | noActiveDocument : AppError
  | compileError (diag : String) : AppError
  | assembleError (diag : String) : AppError
deriving DecidableEq, Repr

/-- Payload handed to the file-emission collaborator saveAs: a Blob built
from a byte sequence or from text. -/
inductive SaveContent where
  | bytes (data : List Nat) : SaveContent
  | text (s : String) : SaveContent
deriving DecidableEq, Repr

/-- One call the controller makes into an external boundary collaborator. -/
inductive ExtCall where
  | compile (player : Bool) (source : String) : ExtCall
  | assemble (asm : String) : ExtCall
  | loadinitdata (data : List Nat) (addr : Nat) : ExtCall
  | playcont : ExtCall
  | stop : ExtCall
  | saveAs (content : SaveContent) (filename : String) : ExtCall
deriving DecidableEq, Repr

/-- The external compiler and assembler as pure functions (the spec treats
them as opaque synchronous services returning a result or failing with a
diagnostic), together with how much wall-clock time each call consumes. -/
structure Services where
  compileFn : Bool → String → Except String String
  compileTime : Nat
  assembleFn : String → Except String (List Nat)
  assembleTime : Nat

/-- The ambient world threaded through Util.bench: the Date.now wall clock
and the console.log lines written by bench, as (stage name, duration)
pairs. -/
structure St where
  clock : Nat
  reports : List (String × Nat)
deriving DecidableEq, Repr

/-- Append one bench report line to the console log. -/
def St.report (s : St) (e : String × Nat) : St :=
  { s with reports := s.reports ++ [e] }

/-- The timer closure inside Util.bench.  Given the captured local variable
time, the action string, and the current Date.now value d, it returns the
new value of time and the value the closure returns.  Clocks are Nat and
assumed monotone, so the JavaScript subtraction d - time is Nat
subtraction. -/
def timerStep (time : Nat) (action : String) (d : Nat) : Nat × Nat :=
  if time < 1 ∨ action = "start" then (d, 0)
  else if action = "stop" then (0, d - time)
  else (time, d - time)

/-- Util.bench from src/src/app/index.ts, generic in the state σ it runs
over (instantiated at St below).  Each invocation allocates its own local
time variable (initially 0), calls timer with action start, runs the
callback, and — only if the callback returns normally — calls timer with
action stop and reports the elapsed duration.  A callback that throws
(returns Except.error) propagates out before the stop or the report
happen, exactly as in the source, which has no try/finally. -/
def Util.bench {σ ε α : Type} (now : σ → Nat) (report : σ → String × Nat → σ)
    (name : String) (callback : σ → Except ε α × σ) (s : σ) : Except ε α × σ :=
  let time0 : Nat := 0
  let step1 := timerStep time0 "start" (now s)
  match callback s with
  | (Except.error e, s1) => (Except.error e, s1)
  | (Except.ok r, s1) =>
      let step2 := timerStep step1.1 "stop" (now s1)
      (Except.ok r, report s1 (name, step2.2))

/-- Util.bench instantiated at the concrete world St. -/
def benchSt {ε α : Type} (name : String) (callback : St → Except ε α × St) (s : St) :
    Except ε α × St :=
  Util.bench St.clock St.report name callback s

/-- Invoke the external compiler: this._compiler.compile(source) for
player = false, or the compile call of a fresh Compiler constructed with
the player flag for player = true.  The call consumes compileTime on the
wall clock. -/
def callCompile (sv : Services) (player : Bool) (source : String) (t : St) :
    Except String String × St :=
  (sv.compileFn player source, { t with clock := t.clock + sv.compileTime })

/-- Invoke the external assembler: this._assembler.assemble(asm). -/
def callAssemble (sv : Services) (asm : String) (t : St) :
    Except String (List Nat) × St :=
  (sv.assembleFn asm, { t with clock := t.clock + sv.assembleTime })

/-- Uint8Array.from on the assembler's objectCode array: each element is
coerced to an unsigned 8-bit value. -/
def toUint8Array (objectCode : List Nat) : List Nat :=
  objectCode.map (fun b => b % 256)

/-- Modelled from the spec: the Document of the DocumentSession data model
(the DocumentPanel widget of src/document is not among the sources).  A
document has a stable identity, a title, the editor's source text, and a
closable flag. -/
structure Document where
  id : Nat
  title : String
  content : String
  closable : Bool
deriving DecidableEq, Repr

/-!  Each App operation below returns the outcome (an uncaught error or
unit), the final bench world, and the list of external boundary calls the
operation made, in order. -/

/-- App.play: read the active source, compile it (bench-wrapped, plain
configuration), assemble the result (bench-wrapped), build the Uint8Array
and hand it to the audio engine via loadinitdata at address 0 followed by
playcont.  A null currentDocument makes the field access throw a
TypeError. -/
def App.play (sv : Services) (curDoc : Option Document) (st : St) :
    Except AppError Unit × St × List ExtCall :=
  match curDoc with
  | none => (Except.error AppError.typeError, st, [])
  | some doc =>
    let source := doc.content
    match benchSt "compile" (callCompile sv false source) st with
    | (Except.error d, st1) =>
        (Except.error (AppError.compileError d), st1, [ExtCall.compile false source])
    | (Except.ok asm, st1) =>
      match benchSt "assemble" (callAssemble sv asm) st1 with
      | (Except.error d, st2) =>
          (Except.error (AppError.assembleError d), st2,
            [ExtCall.compile false source, ExtCall.assemble asm])
      | (Except.ok objectCode, st2) =>
          let sidData := toUint8Array objectCode
          (Except.ok (), st2,
            [ExtCall.compile false source, ExtCall.assemble asm,
             ExtCall.loadinitdata sidData 0, ExtCall.playcont])

/-- App.stop: this._player.stop(). -/
def App.stop (st : St) : Except AppError Unit × St × List ExtCall :=
  (Except.ok (), st, [ExtCall.stop])

/-- App.exportSID: identical compile-then-assemble pipeline as play, but
the Uint8Array is wrapped in a Blob and handed to saveAs as
Untitled.sid. -/
def App.exportSID (sv : Services) (curDoc : Option Document) (st : St) :
    Except AppError Unit × St × List ExtCall :=
  match curDoc with
  | none => (Except.error AppError.typeError, st, [])
  | some doc =>
    let source := doc.content
    match benchSt "compile" (callCompile sv false source) st with
    | (Except.error d, st1) =>
        (Except.error (AppError.compileError d), st1, [ExtCall.compile false source])
    | (Except.ok asm, st1) =>
      match benchSt "assemble" (callAssemble sv asm) st1 with
      | (Except.error d, st2) =>
          (Except.error (AppError.assembleError d), st2,
            [ExtCall.compile false source, ExtCall.assemble asm])
      | (Except.ok objectCode, st2) =>
          let sidData := toUint8Array objectCode
          (Except.ok (), st2,
            [ExtCall.compile false source, ExtCall.assemble asm,
             ExtCall.saveAs (SaveContent.bytes sidData) "Untitled.sid"])

/-- App.exportASM: compile only (bench-wrapped, plain configuration); the
assembly text itself is wrapped in a Blob and handed to saveAs as
Untitled.asm.  The assembler is never mentioned. -/
def App.exportASM (sv : Services) (curDoc : Option Document) (st : St) :
    Except AppError Unit × St × List ExtCall :=
  match curDoc with
  | none => (Except.error AppError.typeError, st, [])
  | some doc =>
    let source := doc.content
    match benchSt "compile" (callCompile sv false source) st with
    | (Except.error d, st1) =>
        (Except.error (AppError.compileError d), st1, [ExtCall.compile false source])
    | (Except.ok asm, st1) =>
        (Except.ok (), st1,
          [ExtCall.compile false source,
           ExtCall.saveAs (SaveContent.text asm) "Untitled.asm"])

/-- App.exportPlayer: the compile stage constructs a fresh Compiler with
the player flag set and compiles with it; then the usual assemble stage,
and the bytes go to saveAs as Untitled.prg. -/
def App.exportPlayer (sv : Services) (curDoc : Option Document) (st : St) :
    Except AppError Unit × St × List ExtCall :=
  match curDoc with
  | none => (Except.error AppError.typeError, st, [])
  | some doc =>
    let source := doc.content
    match benchSt "compile" (callCompile sv true source) st with
    | (Except.error d, st1) =>
        (Except.error (AppError.compileError d), st1, [ExtCall.compile true source])
    | (Except.ok asm, st1) =>
      match benchSt "assemble" (callAssemble sv asm) st1 with
      | (Except.error d, st2) =>
          (Except.error (AppError.assembleError d), st2,
            [ExtCall.compile true source, ExtCall.assemble asm])
      | (Except.ok objectCode, st2) =>
          let prgData := toUint8Array objectCode
          (Except.ok (), st2,
            [ExtCall.compile true source, ExtCall.assemble asm,
             ExtCall.saveAs (SaveContent.bytes prgData) "Untitled.prg"])

/-- Modelled from the spec: the DocumentPanel collaborator
(this.panel.documentPanel; src/document is not among the sources).  It
owns the ordered children and the current widget; per the spec the current
reference is nullable only when the sequence is empty and otherwise points
to a member of the sequence. -/
structure DocPanel where
  children : List Document
  cur : Option Nat
deriving DecidableEq, Repr

/-- docPanel.childCount(). -/
def DocPanel.childCount (p : DocPanel) : Nat :=
  p.children.length

/-- docPanel.currentWidget, null when no document is current. -/
def DocPanel.currentWidget (p : DocPanel) : Option Document :=
  p.cur.bind (fun i => p.children.get? i)

/-- The session invariant of the spec: the current reference is null
exactly on the empty sequence and otherwise indexes a member. -/
def DocPanel.wf (p : DocPanel) : Prop :=
  match p.cur with
  | none => p.children = []
  | some i => i < p.children.length

/-- Modelled from the spec: docPanel.currentWidget.close().  Calling close
on a null currentWidget is a null dereference (TypeError); otherwise the
current document is removed from the sequence and the current reference is
atomically reassigned to another member (or to null if none remain).  A
current reference dangling outside the sequence is likewise a failed
widget access. -/
def DocPanel.closeCurrent (p : DocPanel) : Except AppError DocPanel :=
  match p.cur with
  | none => Except.error AppError.typeError
  | some i =>
    if i < p.children.length then
      let rest := p.children.eraseIdx i
      Except.ok { children := rest,
                  cur := if rest.length = 0 then none else some (min i (rest.length - 1)) }
    else Except.error AppError.typeError

/-- App.closeDocument: this.currentDocument.close(). -/
def App.closeDocument (p : DocPanel) : Except AppError DocPanel :=
  p.closeCurrent

theorem closeCurrent_length {p p1 : DocPanel} (h : p.closeCurrent = Except.ok p1) :
    p1.children.length + 1 = p.children.length := by
  unfold DocPanel.closeCurrent at h
  split at h
  · exact absurd h (by simp)
  · split at h
    · rename_i i hcur hi
      injection h with h1
      subst h1
      simp only [List.length_eraseIdx, hi, if_true]
      omega
    · exact absurd h (by simp)

set_option linter.unusedVariables false in
/-- App.closeAllDocuments: while the panel has children, close the current
widget.  The loop body can only throw (modelled as Except.error), in which
case the exception exits the loop; the count returned is the number of
completed close operations. -/
def App.closeAllDocuments (p : DocPanel) : Except AppError (DocPanel × Nat) :=
  if h0 : p.childCount = 0 then Except.ok (p, 0)
  else
    match hc : p.closeCurrent with
    | Except.error e => Except.error e
    | Except.ok p1 =>
      match App.closeAllDocuments p1 with
      | Except.error e => Except.error e
      | Except.ok (pf, n) => Except.ok (pf, n + 1)
termination_by p.children.length
decreasing_by
  have := closeCurrent_length hc
  omega

/-- Placeholder widget created by Private.createPlaceholder: a titled,
closable widget with a color class. -/
structure Placeholder where
  title : String
  color : String
  closable : Bool
deriving DecidableEq, Repr

/-- Private.createPlaceholder(title, color). -/
def createPlaceholder (title : String) (color : String) : Placeholder :=
  { title := title, color := color, closable := true }

/-- The side panel the view handlers insert into
(app.panel.sidePanel). -/
structure SidePanel where
  widgets : List Placeholder
deriving DecidableEq, Repr

/-- sidePanel.insertRight(panel). -/
def SidePanel.insertRight (p : SidePanel) (w : Placeholder) : SidePanel :=
  { widgets := p.widgets ++ [w] }

/-- Private.viewPianoRoll: unconditionally creates a fresh placeholder and
inserts it; the menu item's checked state is ignored and no stored flag is
consulted (the body is marked TODO in the source). -/
def viewPianoRoll (p : SidePanel) : SidePanel :=
  p.insertRight (createPlaceholder "Piano Roll" "green")

/-- Private.viewInstrumentEditor, same shape as viewPianoRoll. -/
def viewInstrumentEditor (p : SidePanel) : SidePanel :=
  p.insertRight (createPlaceholder "Instrument Editor" "red")

/-- Private.viewOscilloscope, same shape as viewPianoRoll. -/
def viewOscilloscope (p : SidePanel) : SidePanel :=
  p.insertRight (createPlaceholder "Oscilloscope" "blue")

/-- Number of widgets with the given title currently in the side panel. -/
def panelCount (name : String) (p : SidePanel) : Nat :=
  (p.widgets.filter (fun w => w.title == name)).length

/-!  Observation helpers over call traces. -/

/-- Number of assembler invocations in a trace. -/
def assembleCount (l : List ExtCall) : Nat :=
  (l.filter (fun c => match c with
    | ExtCall.assemble _ => true
    | _ => false)).length

/-- The calls in a trace that produce or emit an artifact: loads into the
audio engine, playback starts, and file emissions. -/
def emissions (l : List ExtCall) : List ExtCall :=
  l.filter (fun c => match c with
    | ExtCall.loadinitdata _ _ => true
    | ExtCall.playcont => true
    | ExtCall.saveAs _ _ => true
    | _ => false)

/-- The player flags of the compiler invocations in a trace, in order. -/
def compileFlags (l : List ExtCall) : List Bool :=
  l.filterMap (fun c => match c with
    | ExtCall.compile p _ => some p
    | _ => none)

/-- The artifacts handed to saveAs in a trace, with their filenames. -/
def savedArtifacts (l : List ExtCall) : List (SaveContent × String) :=
  l.filterMap (fun c => match c with
    | ExtCall.saveAs content n => some (content, n)
    | _ => none)

/-- The byte sequences loaded into the audio engine in a trace. -/
def loadedBytes (l : List ExtCall) : List (List Nat) :=
  l.filterMap (fun c => match c with
    | ExtCall.loadinitdata data _ => some data
    | _ => none)

/-- The byte sequences written through saveAs in a trace. -/
def savedByteData (l : List ExtCall) : List (List Nat) :=
  l.filterMap (fun c => match c with
    | ExtCall.saveAs (SaveContent.bytes data) _ => some data
    | _ => none)

/-!  Concrete fixtures used in witnesses and counterexamples. -/

/-- A compiler and assembler that always succeed. -/
def svOk : Services :=
  { compileFn := fun _ _ => Except.ok "lda #0",
    compileTime := 3,
    assembleFn := fun _ => Except.ok [1, 2, 3],
    assembleTime := 4 }

/-- A compiler that always fails with a diagnostic, paired with a working
assembler. -/
def svBad : Services :=
  { compileFn := fun player _ => Except.error (if player then "bad player" else "bad"),
    compileTime := 3,
    assembleFn := fun _ => Except.ok [1, 2, 3],
    assembleTime := 4 }

/-- A sample open document. -/
def doc0 : Document :=
  { id := 0, title := "Untitled", content := "song", closable := true }

/-- A second sample open document. -/
def doc1 : Document :=
  { id := 1, title := "Untitled 2", content := "song2", closable := true }

/-- A sample starting world with a positive wall clock. -/
def st0 : St :=
  { clock := 10, reports := [] }

/-- A bench callback that throws after consuming 5 time units. -/
def throwingCallback : St → Except String Nat × St :=
  fun t => (Except.error "boom", { t with clock := t.clock + 5 })

/-- A bench callback that returns 42 after consuming 3 time units. -/
def innerCallback : St → Except String Nat × St :=
  fun t => (Except.ok 42, { t with clock := t.clock + 3 })

/-!  Helper equations for the timer closure and for bench. -/

theorem timerStep_start (time : Nat) (d : Nat) : timerStep time "start" d = (d, 0) := by
  simp [timerStep]

theorem timerStep_stop (time : Nat) (d : Nat) (h : 1 ≤ time) :
    timerStep time "stop" d = (0, d - time) := by
  have h1 : ¬(time < 1 ∨ ("stop" : String) = "start") := by
    rintro (h2 | h2)
    · omega
    · exact absurd h2 (by decide)
  unfold timerStep
  rw [if_neg h1, if_pos rfl]

theorem benchSt_err {ε α : Type} (name : String) (cb : St → Except ε α × St)
    (st st1 : St) (e : ε) (hcb : cb st = (Except.error e, st1)) :
    benchSt name cb st = (Except.error e, st1) := by
  unfold benchSt Util.bench
  rw [hcb]

theorem benchSt_ok_shape {ε α : Type} (name : String) (cb : St → Except ε α × St)
    (st st1 : St) (r : α) (hcb : cb st = (Except.ok r, st1)) :
    benchSt name cb st
      = (Except.ok r, St.report st1 (name, (timerStep st.clock "stop" st1.clock).2)) := by
  unfold benchSt Util.bench
  rw [hcb]
  simp only [timerStep_start]

theorem benchSt_compile_err (sv : Services) (player : Bool) (source : String) (d : String)
    (hc : sv.compileFn player source = Except.error d) (t : St) :
    benchSt "compile" (callCompile sv player source) t
      = (Except.error d, { t with clock := t.clock + sv.compileTime }) :=
  benchSt_err "compile" (callCompile sv player source) t
    { t with clock := t.clock + sv.compileTime } d (by simp [callCompile, hc])

theorem benchSt_compile_ok (sv : Services) (player : Bool) (source : String) (asm : String)
    (hc : sv.compileFn player source = Except.ok asm) (t : St) :
    benchSt "compile" (callCompile sv player source) t
      = (Except.ok asm,
         St.report { t with clock := t.clock + sv.compileTime }
           ("compile", (timerStep t.clock "stop" (t.clock + sv.compileTime)).2)) :=
  benchSt_ok_shape "compile" (callCompile sv player source) t
    { t with clock := t.clock + sv.compileTime } asm (by simp [callCompile, hc])

theorem benchSt_assemble_err (sv : Services) (asm : String) (d : String)
    (ha : sv.assembleFn asm = Except.error d) (t : St) :
    benchSt "assemble" (callAssemble sv asm) t
      = (Except.error d, { t with clock := t.clock + sv.assembleTime }) :=
  benchSt_err "assemble" (callAssemble sv asm) t
    { t with clock := t.clock + sv.assembleTime } d (by simp [callAssemble, ha])

theorem benchSt_assemble_ok (sv : Services) (asm : String) (oc : List Nat)
    (ha : sv.assembleFn asm = Except.ok oc) (t : St) :
    benchSt "assemble" (callAssemble sv asm) t
      = (Except.ok oc,
         St.report { t with clock := t.clock + sv.assembleTime }
           ("assemble", (timerStep t.clock "stop" (t.clock + sv.assembleTime)).2)) :=
  benchSt_ok_shape "assemble" (callAssemble sv asm) t
    { t with clock := t.clock + sv.assembleTime } oc (by simp [callAssemble, ha])

/-!  Claim theorems. -/

/-- C8 counterexample: running bench on a callback that throws propagates
the error, but the console log stays empty — contrary to the claim, the
stage's elapsed duration is never recorded or reported before the failure
propagates (the source has no try/finally around the callback). -/
theorem bench_throw_unreported_counterexample :
    (benchSt "compile" throwingCallback { clock := 100, reports := [] }).2.reports = [] ∧
    (benchSt "compile" throwingCallback { clock := 100, reports := [] }).1
      = Except.error "boom" := by
  constructor <;> rfl

/-- C8 (amended): for every stage name and callback, if the callback
throws then bench propagates the thrown failure unchanged and never
returns a result, but it does not record or report the stage's duration:
the state is exactly the callback's final state, with no report
appended. -/
theorem bench_throw_propagates_without_report {ε α : Type} (name : String)
    (cb : St → Except ε α × St) (st st1 : St) (e : ε)
    (h : cb st = (Except.error e, st1)) :
    benchSt name cb st = (Except.error e, st1) ∧
    (benchSt name cb st).2.reports = st1.reports := by
  have hb := benchSt_err name cb st st1 e h
  exact ⟨hb, by rw [hb]⟩

/-- C8 witness: the amended theorem applied to a concrete throwing
callback. -/
theorem bench_throw_propagates_without_report_witness :
    benchSt "compile" throwingCallback { clock := 100, reports := [] }
      = (Except.error "boom", { clock := 105, reports := [] }) ∧
    (benchSt "compile" throwingCallback { clock := 100, reports := [] }).2.reports = [] :=
  bench_throw_propagates_without_report "compile" throwingCallback
    { clock := 100, reports := [] } { clock := 105, reports := [] } "boom" rfl

/-- C9: nested bench invocations keep independent timers.  An outer bench
whose callback advances the clock by a, then runs an inner bench around a
callback consuming b, then advances by c, reports exactly a + b + c for
the outer stage and exactly b for the inner stage (the inner call's local
start/stop bookkeeping does not corrupt the outer duration — a shared
timer would have reset and made the outer call report 0), and each call
returns its own callback's result unchanged. -/
theorem bench_nested_independent_timers {α : Type} (outerName innerName : String)
    (a b c : Nat) (st : St) (h : 1 ≤ st.clock) (rIn : α)
    (cbIn : St → Except String α × St)
    (hIn : ∀ t, cbIn t = (Except.ok rIn, { t with clock := t.clock + b })) :
    benchSt outerName
      (fun t =>
        match benchSt innerName cbIn { t with clock := t.clock + a } with
        | (r, t2) => (r, { t2 with clock := t2.clock + c })) st
    = (Except.ok rIn,
       { clock := st.clock + a + b + c,
         reports := st.reports ++ [(innerName, b), (outerName, a + b + c)] }) := by
  have hinner : benchSt innerName cbIn { st with clock := st.clock + a }
      = (Except.ok rIn,
         { clock := st.clock + a + b, reports := st.reports ++ [(innerName, b)] }) := by
    rw [benchSt_ok_shape innerName cbIn { st with clock := st.clock + a }
        { clock := st.clock + a + b, reports := st.reports } rIn (hIn _)]
    rw [timerStep_stop _ _ (by simp; omega)]
    simp [St.report]
  have houter : (fun t =>
        match benchSt innerName cbIn { t with clock := t.clock + a } with
        | (r, t2) => (r, { t2 with clock := t2.clock + c })) st
      = (Except.ok rIn,
         { clock := st.clock + a + b + c, reports := st.reports ++ [(innerName, b)] }) := by
    simp only
    rw [hinner]
  rw [benchSt_ok_shape outerName _ st
      { clock := st.clock + a + b + c, reports := st.reports ++ [(innerName, b)] } rIn houter]
  rw [timerStep_stop _ _ h]
  have hd : st.clock + a + b + c - st.clock = a + b + c := by omega
  simp [St.report, hd]

/-- C9 witness: the nested-timer theorem at concrete stage names, clock
and durations. -/
theorem bench_nested_independent_timers_witness :
    benchSt "outer"
      (fun t =>
        match benchSt "inner" innerCallback { t with clock := t.clock + 2 } with
        | (r, t2) => (r, { t2 with clock := t2.clock + 4 })) { clock := 10, reports := [] }
    = (Except.ok 42,
       { clock := 10 + 2 + 3 + 4,
         reports := [("inner", 3), ("outer", 2 + 3 + 4)] }) :=
  bench_nested_independent_timers "outer" "inner" 2 3 4 { clock := 10, reports := [] }
    (by decide) 42 innerCallback (fun t => rfl)

/-- C7 (code bug): the view handlers are plain insertions.  Toggling the
Piano Roll twice from an empty side panel leaves two Piano Roll
placeholders (likewise for the Oscilloscope), so no stored boolean is
flipped and the at-most-one-visible-instance property fails; the claim
describes the intended toggle the source marks TODO. -/
theorem toggle_inserts_duplicate_panels :
    panelCount "Piano Roll" (viewPianoRoll (viewPianoRoll { widgets := [] })) = 2 ∧
    panelCount "Oscilloscope" (viewOscilloscope (viewOscilloscope { widgets := [] })) = 2 ∧
    viewPianoRoll (viewPianoRoll { widgets := [] })
      = { widgets := [createPlaceholder "Piano Roll" "green",
                      createPlaceholder "Piano Roll" "green"] } := by
  refine ⟨rfl, rfl, rfl⟩

theorem closeCurrent_progress {p : DocPanel} (h : p.wf) (hne : p.children ≠ []) :
    ∃ p1, p.closeCurrent = Except.ok p1 ∧ p1.wf ∧
      p1.children.length + 1 = p.children.length := by
  unfold DocPanel.wf at h
  cases hcur : p.cur with
  | none =>
      rw [hcur] at h
      exact absurd h hne
  | some i =>
      rw [hcur] at h
      change i < p.children.length at h
      have hclose : p.closeCurrent = Except.ok
          { children := p.children.eraseIdx i,
            cur := if (p.children.eraseIdx i).length = 0 then none
                   else some (min i ((p.children.eraseIdx i).length - 1)) } := by
        simp only [DocPanel.closeCurrent, hcur]
        rw [if_pos h]
      refine ⟨_, hclose, ?_, ?_⟩
      · by_cases h0 : (p.children.eraseIdx i).length = 0
        · simp only [DocPanel.wf, h0, if_true]
          exact List.length_eq_zero.mp h0
        · simp only [DocPanel.wf, h0, if_false]
          have hmin : min i ((p.children.eraseIdx i).length - 1)
              ≤ (p.children.eraseIdx i).length - 1 := Nat.min_le_right _ _
          omega
      · simp only [List.length_eraseIdx, h, if_true]
        omega

theorem closeAll_aux : ∀ (n : Nat) (p : DocPanel), p.wf → p.children.length = n →
    App.closeAllDocuments p = Except.ok ({ children := [], cur := none }, n) := by
  intro n
  induction n with
  | zero =>
      intro p h hn
      have hc : p.children = [] := List.length_eq_zero.mp hn
      unfold DocPanel.wf at h
      obtain ⟨children, cur⟩ := p
      simp only at hc
      subst hc
      cases cur with
      | some i => simp at h
      | none =>
          unfold App.closeAllDocuments
          simp [DocPanel.childCount]
  | succ n ih =>
      intro p h hn
      have hne : p.children ≠ [] := by
        intro hnil
        rw [hnil] at hn
        simp at hn
      obtain ⟨p1, hclose, hwf1, hlen⟩ := closeCurrent_progress h hne
      have hn1 : p1.children.length = n := by omega
      unfold App.closeAllDocuments
      rw [dif_neg (by simp [DocPanel.childCount, hn])]
      split
      · rename_i e heq
        rw [hclose] at heq
        exact absurd heq (by simp)
      · rename_i p1x heq
        rw [hclose] at heq
        injection heq with heqx
        subst heqx
        rw [ih p1 hwf1 hn1]

/-- C3: closing all documents on a well-formed session with N open
documents terminates, performs exactly N close-of-current-document
removals, and leaves the session empty.  Success of the run (Except.ok
rather than the TypeError that the model raises for a close on a null or
dangling current reference) also shows that every single close acted on a
live member of the sequence, never on an already-removed document. -/
theorem closeAllDocuments_empties_in_n_removals (p : DocPanel) (h : p.wf) :
    App.closeAllDocuments p
      = Except.ok ({ children := [], cur := none }, p.children.length) :=
  closeAll_aux p.children.length p h rfl

/-- C3 witness: a session with two documents closes in exactly two
removals. -/
theorem closeAllDocuments_empties_in_n_removals_witness :
    App.closeAllDocuments { children := [doc0, doc1], cur := some 0 }
      = Except.ok ({ children := [], cur := none }, 2) :=
  closeAllDocuments_empties_in_n_removals
    { children := [doc0, doc1], cur := some 0 } (by simp [DocPanel.wf])

/-- C4 counterexample: on the empty session, App.closeDocument does fail,
but the failure is the generic null-dereference TypeError of
this.currentDocument.close(), not the distinguishable NoActiveDocument
error the claim requires. -/
theorem emptySession_error_not_noActiveDocument :
    App.closeDocument { children := [], cur := none } = Except.error AppError.typeError ∧
    App.closeDocument { children := [], cur := none }
      ≠ Except.error AppError.noActiveDocument := by
  refine ⟨rfl, by simp [App.closeDocument, DocPanel.closeCurrent]⟩

/-- C4 (amended): when the document sequence is empty, closing the active
document and every operation that reads the active source (play and all
exports) fail — no operation succeeds or runs the pipeline — but they fail
with the generic null-dereference TypeError, which is not the
distinguishable NoActiveDocument error. -/
theorem emptySession_fails_with_typeError (p : DocPanel)
    (hempty : p.children = []) (hwf : p.wf) (sv : Services) (st : St) :
    App.closeDocument p = Except.error AppError.typeError ∧
    App.play sv p.currentWidget st = (Except.error AppError.typeError, st, []) ∧
    App.exportSID sv p.currentWidget st = (Except.error AppError.typeError, st, []) ∧
    App.exportASM sv p.currentWidget st = (Except.error AppError.typeError, st, []) ∧
    App.exportPlayer sv p.currentWidget st = (Except.error AppError.typeError, st, []) ∧
    AppError.typeError ≠ AppError.noActiveDocument := by
  have hcur : p.cur = none := by
    unfold DocPanel.wf at hwf
    cases hcase : p.cur with
    | none => rfl
    | some i =>
        rw [hcase] at hwf
        rw [hempty] at hwf
        simp at hwf
  have hcw : p.currentWidget = none := by
    simp [DocPanel.currentWidget, hcur]
  refine ⟨?_, ?_, ?_, ?_, ?_, by simp⟩ <;>
    simp [App.closeDocument, DocPanel.closeCurrent, hcur, hcw,
      App.play, App.exportSID, App.exportASM, App.exportPlayer]

/-- C4 witness: the amended theorem applied to the concrete empty
session. -/
theorem emptySession_fails_with_typeError_witness :
    App.closeDocument { children := [], cur := none }
        = Except.error AppError.typeError ∧
    App.play svOk (DocPanel.currentWidget { children := [], cur := none }) st0
        = (Except.error AppError.typeError, st0, []) ∧
    App.exportSID svOk (DocPanel.currentWidget { children := [], cur := none }) st0
        = (Except.error AppError.typeError, st0, []) ∧
    App.exportASM svOk (DocPanel.currentWidget { children := [], cur := none }) st0
        = (Except.error AppError.typeError, st0, []) ∧
    App.exportPlayer svOk (DocPanel.currentWidget { children := [], cur := none }) st0
        = (Except.error AppError.typeError, st0, []) ∧
    AppError.typeError ≠ AppError.noActiveDocument :=
  emptySession_fails_with_typeError { children := [], cur := none } rfl
    (by simp [DocPanel.wf]) svOk st0

/-- C1: if the compiler fails on the active source (in the plain and the
player configuration), then play, exportSID and exportPlayer all abort
with a CompileError carrying the compiler's diagnostic, the assembler is
never invoked, and no artifact is loaded, played, or emitted. -/
theorem compileFailure_aborts_pipeline (sv : Services) (doc : Document) (st : St)
    (d dp : String)
    (hc : sv.compileFn false doc.content = Except.error d)
    (hp : sv.compileFn true doc.content = Except.error dp) :
    App.play sv (some doc) st
      = (Except.error (AppError.compileError d),
         { st with clock := st.clock + sv.compileTime },
         [ExtCall.compile false doc.content]) ∧
    App.exportSID sv (some doc) st
      = (Except.error (AppError.compileError d),
         { st with clock := st.clock + sv.compileTime },
         [ExtCall.compile false doc.content]) ∧
    App.exportPlayer sv (some doc) st
      = (Except.error (AppError.compileError dp),
         { st with clock := st.clock + sv.compileTime },
         [ExtCall.compile true doc.content]) ∧
    assembleCount (App.play sv (some doc) st).2.2 = 0 ∧
    assembleCount (App.exportSID sv (some doc) st).2.2 = 0 ∧
    assembleCount (App.exportPlayer sv (some doc) st).2.2 = 0 ∧
    emissions (App.play sv (some doc) st).2.2 = [] ∧
    emissions (App.exportSID sv (some doc) st).2.2 = [] ∧
    emissions (App.exportPlayer sv (some doc) st).2.2 = [] := by
  refine ⟨?_, ?_, ?_, ?_, ?_, ?_, ?_, ?_, ?_⟩ <;>
    simp [App.play, App.exportSID, App.exportPlayer,
      benchSt_compile_err sv false doc.content d hc,
      benchSt_compile_err sv true doc.content dp hp,
      assembleCount, emissions]

/-- C1 witness: the theorem at a concrete failing compiler. -/
theorem compileFailure_aborts_pipeline_witness :
    App.play svBad (some doc0) st0
      = (Except.error (AppError.compileError "bad"),
         { clock := 13, reports := [] }, [ExtCall.compile false "song"]) ∧
    App.exportSID svBad (some doc0) st0
      = (Except.error (AppError.compileError "bad"),
         { clock := 13, reports := [] }, [ExtCall.compile false "song"]) ∧
    App.exportPlayer svBad (some doc0) st0
      = (Except.error (AppError.compileError "bad player"),
         { clock := 13, reports := [] }, [ExtCall.compile true "song"]) ∧
    assembleCount (App.play svBad (some doc0) st0).2.2 = 0 ∧
    assembleCount (App.exportSID svBad (some doc0) st0).2.2 = 0 ∧
    assembleCount (App.exportPlayer svBad (some doc0) st0).2.2 = 0 ∧
    emissions (App.play svBad (some doc0) st0).2.2 = [] ∧
    emissions (App.exportSID svBad (some doc0) st0).2.2 = [] ∧
    emissions (App.exportPlayer svBad (some doc0) st0).2.2 = [] :=
  compileFailure_aborts_pipeline svBad doc0 st0 "bad" "bad player" rfl rfl

/-- C2: for every source text, exportASM never invokes the assembler, and
the artifact it hands to saveAs is exactly the compile stage's output
text (and nothing is emitted at all when the compiler fails). -/
theorem exportASM_skips_assembler (sv : Services) (doc : Document) (st : St) :
    assembleCount (App.exportASM sv (some doc) st).2.2 = 0 ∧
    savedArtifacts (App.exportASM sv (some doc) st).2.2
      = (match sv.compileFn false doc.content with
         | Except.ok asm => [(SaveContent.text asm, "Untitled.asm")]
         | Except.error _ => []) := by
  cases hc : sv.compileFn false doc.content with
  | error d =>
      simp [App.exportASM, benchSt_compile_err sv false doc.content d hc,
        assembleCount, savedArtifacts]
  | ok asm =>
      simp [App.exportASM, benchSt_compile_ok sv false doc.content asm hc,
        assembleCount, savedArtifacts]

/-- C5 counterexample: a concrete play invocation on a working compiler
and assembler issues exactly a compile, an assemble, a load and a
playback start — it never issues a stop call, so a previous playback run
is not stopped before the new one starts. -/
theorem play_no_stop_counterexample :
    (App.play svOk (some doc0) st0).2.2
      = [ExtCall.compile false "song", ExtCall.assemble "lda #0",
         ExtCall.loadinitdata [1, 2, 3] 0, ExtCall.playcont] ∧
    ExtCall.stop ∉ (App.play svOk (some doc0) st0).2.2 := by
  refine ⟨rfl, by decide⟩

/-- C5 (amended): play never invokes the audio engine's stop: whatever the
compiler and assembler do, its boundary-call trace contains no stop call
(it loads the new data and starts playback directly, so overlap avoidance
is delegated to the external engine's last-call-wins behavior); stop is
issued only by the App.stop operation. -/
theorem play_never_stops_previous (sv : Services) (curDoc : Option Document) (st : St) :
    ExtCall.stop ∉ (App.play sv curDoc st).2.2 ∧
    App.stop st = (Except.ok (), st, [ExtCall.stop]) := by
  refine ⟨?_, rfl⟩
  cases curDoc with
  | none => simp [App.play]
  | some doc =>
      cases hc : sv.compileFn false doc.content with
      | error d =>
          simp [App.play, benchSt_compile_err sv false doc.content d hc]
      | ok asm =>
          cases ha : sv.assembleFn asm with
          | error d =>
              simp [App.play, benchSt_compile_ok sv false doc.content asm hc,
                benchSt_assemble_err sv asm d ha]
          | ok oc =>
              simp [App.play, benchSt_compile_ok sv false doc.content asm hc,
                benchSt_assemble_ok sv asm oc ha]

/-- C6: the compile stage runs with the player flag set exactly when the
build target is the player-program export: play, exportSID and exportASM
invoke the compiler once with the plain configuration, exportPlayer
invokes it once with the player configuration. -/
theorem compile_player_flag_matches_target (sv : Services) (doc : Document) (st : St) :
    compileFlags (App.play sv (some doc) st).2.2 = [false] ∧
    compileFlags (App.exportSID sv (some doc) st).2.2 = [false] ∧
    compileFlags (App.exportASM sv (some doc) st).2.2 = [false] ∧
    compileFlags (App.exportPlayer sv (some doc) st).2.2 = [true] := by
  refine ⟨?_, ?_, ?_, ?_⟩ <;>
  · first
    | (cases hc : sv.compileFn false doc.content with
       | error d =>
           simp [App.play, App.exportSID, App.exportASM,
             benchSt_compile_err sv false doc.content d hc, compileFlags]
       | ok asm =>
           cases ha : sv.assembleFn asm with
           | error d =>
               simp [App.play, App.exportSID, App.exportASM,
                 benchSt_compile_ok sv false doc.content asm hc,
                 benchSt_assemble_err sv asm d ha, compileFlags]
           | ok oc =>
               simp [App.play, App.exportSID, App.exportASM,
                 benchSt_compile_ok sv false doc.content asm hc,
                 benchSt_assemble_ok sv asm oc ha, compileFlags])
    | (cases hc : sv.compileFn true doc.content with
       | error d =>
           simp [App.exportPlayer,
             benchSt_compile_err sv true doc.content d hc, compileFlags]
       | ok asm =>
           cases ha : sv.assembleFn asm with
           | error d =>
               simp [App.exportPlayer,
                 benchSt_compile_ok sv true doc.content asm hc,
                 benchSt_assemble_err sv asm d ha, compileFlags]
           | ok oc =>
               simp [App.exportPlayer,
                 benchSt_compile_ok sv true doc.content asm hc,
                 benchSt_assemble_ok sv asm oc ha, compileFlags])

/-- C10: with the compiler and assembler modeled as pure functions, the
byte sequences play loads into the audio engine are exactly the byte
sequences exportSID writes to Untitled.sid, for the same active document
(regardless of the starting clocks): both run the identical
compile-then-assemble pipeline on the same source. -/
theorem play_exportSID_same_bytes (sv : Services) (curDoc : Option Document)
    (st1 st2 : St) :
    loadedBytes (App.play sv curDoc st1).2.2
      = savedByteData (App.exportSID sv curDoc st2).2.2 := by
  cases curDoc with
  | none => simp [App.play, App.exportSID, loadedBytes, savedByteData]
  | some doc =>
      cases hc : sv.compileFn false doc.content with
      | error d =>
          simp [App.play, App.exportSID,
            benchSt_compile_err sv false doc.content d hc, loadedBytes, savedByteData]
      | ok asm =>
          cases ha : sv.assembleFn asm with
          | error d =>
              simp [App.play, App.exportSID,
                benchSt_compile_ok sv false doc.content asm hc,
                benchSt_assemble_err sv asm d ha, loadedBytes, savedByteData]
          | ok oc =>
              simp [App.play, App.exportSID,
                benchSt_compile_ok sv false doc.content asm hc,
                benchSt_assemble_ok sv asm oc ha, loadedBytes, savedByteData]

end Gakuon
